import Mathlib

/-!
Verification development for the per-core I/O channel and remote-target
attachment layer of Mayastor.

The development shallowly embeds two source files:

* `src/mayastor/src/nvmf_dev.rs` — URL-to-request parsing (`TryFrom<&Url> for
  NvmfBdev`), asynchronous bdev creation (`NvmfBdev::create` with its oneshot
  completion callback `nvme_done`) and synchronous destruction
  (`NvmfBdev::destroy`).
* `src/mayastor/src/bdev/dev/nvmx/channel.rs` — per-core I/O channel creation
  and destruction (`NvmeControllerIoChannel::create` / `destroy`), the
  completion poller `nvme_poll` and the disconnect callback
  `disconnected_qpair_cb`.

External collaborators (the `url` crate, `futures::channel::oneshot`, the SPDK
driver primitives) are modelled at their interface: their observable outcomes
are explicit parameters or recorded actions, never reimplemented. Resource
accounting (queue pairs, poll groups, pollers, heap-allocated channel state)
is threaded explicitly so leak/cleanup sentences of the specification become
statements about a `ResourceState`.
-/

/- ------------------------------------------------------------------ -/
/- nvmf_dev.rs: data model                                            -/
/- ------------------------------------------------------------------ -/

/-- Embeds `enum ParseError` of nvmf_dev.rs: the only variant is
`PathMissing` ("Missing path component"). -/
inductive ParseError where
  | PathMissing
  deriving DecidableEq, Repr

/-- Embeds the `nexus_uri::BdevError` variants constructed in nvmf_dev.rs
(`BdevExists`, `BdevNotFound`, `InvalidParams`, `CreateBdev`, `DestroyBdev`),
each carrying the device name recorded at the construction site. -/
inductive BdevError where
  | BdevExists (name : String)
  | BdevNotFound (name : String)
  | InvalidParams (name : String)
  | CreateBdev (name : String)
  | DestroyBdev (name : String)
  deriving DecidableEq, Repr

/-- Embeds `struct NvmfBdev` of nvmf_dev.rs: the nvme_bdev create arguments. -/
structure NvmfBdev where
  name : String
  trtype : String
  adrfam : String
  traddr : String
  trsvcid : String
  subnqn : String
  hostnqn : String
  hostaddr : String
  hostsvcid : String
  prchk_reftag : Bool
  prchk_guard : Bool
  deriving DecidableEq, Repr

/-- Embeds `#[derive(Default)]` for `NvmfBdev`: every string field empty,
every boolean field false. -/
def NvmfBdev.default : NvmfBdev :=
  { name := ""
    trtype := ""
    adrfam := ""
    traddr := ""
    trsvcid := ""
    subnqn := ""
    hostnqn := ""
    hostaddr := ""
    hostsvcid := ""
    prchk_reftag := false
    prchk_guard := false }

/-- Interface model of a parsed `url::Url` (the `url` crate is an external
collaborator): exactly the observations `TryFrom<&Url> for NvmfBdev` makes.
`pathSegments` models `Url::path_segments()` (`none` for URLs whose path does
not start with a slash — the "no path segment" case); `hostStr` models
`Url::host_str()`; `port` models `Url::port()`; `queryPairs` models
`Url::query_pairs()` in order; `urlString` models `Url::to_string()`. -/
structure Url where
  hostStr : Option String
  port : Option Nat
  pathSegments : Option (List String)
  queryPairs : List (String × String)
  urlString : String
  deriving DecidableEq, Repr

/-- Models the Rust indexing `s[0]` on the collected path segments. The `url`
crate guarantees a `Some` result of `path_segments()` yields at least one
segment (splitting a string is never empty), so the empty-list default is
never reached on inputs produced by the crate. -/
def firstSegment : List String → String
  | [] => ""
  | h :: _ => h

/-- Embeds one iteration of the query-pair loop in `TryFrom<&Url> for
NvmfBdev`: `hostnqn` sets the host NQN, `reftag` and `guard` switch on the
protection checks, and any other key is logged (`warn!`) and ignored. The
second component accumulates the warning lines. -/
def NvmfBdev.applyQueryPair (acc : NvmfBdev × List String) (p : String × String) :
    NvmfBdev × List String :=
  match p.1 with
  | "hostnqn" => ({ acc.1 with hostnqn := p.2 }, acc.2)
  | "reftag" => ({ acc.1 with prchk_reftag := true }, acc.2)
  | "guard" => ({ acc.1 with prchk_guard := true }, acc.2)
  | _ => (acc.1, acc.2 ++ ["query parameter " ++ p.1 ++ " ignored"])

/-- Embeds `TryFrom<&Url> for NvmfBdev` of nvmf_dev.rs. The result pairs the
parsed arguments with the warning lines produced for ignored query
parameters. `u.hostStr.getD ""` models `u.host_str().unwrap()` (the unwrap
cannot fail on URLs that carry an authority, which all callers supply). -/
def NvmfBdev.try_from (u : Url) : Except ParseError (NvmfBdev × List String) :=
  match u.pathSegments with
  | none => Except.error ParseError.PathMissing
  | some s =>
    let base : NvmfBdev :=
      { NvmfBdev.default with
          trtype := "TCP"
          adrfam := "IPv4"
          subnqn := firstSegment s
          trsvcid := match u.port with
            | some p => toString p
            | none => "4420"
          traddr := u.hostStr.getD ""
          name := u.urlString }
    Except.ok (u.queryPairs.foldl NvmfBdev.applyQueryPair (base, []))

/- ------------------------------------------------------------------ -/
/- nvmf_dev.rs: attachment and detachment                             -/
/- ------------------------------------------------------------------ -/

/-- Calls issued to the SPDK driver by the attachment layer:
`spdk_bdev_nvme_create` and `spdk_bdev_nvme_delete`, each recorded with the
name argument passed to it. -/
inductive DriverCall where
  | nvmeCreate (name : String)
  | nvmeDelete (name : String)
  deriving DecidableEq, Repr

/-- Modelled from the spec: `errno_result_from_i32` lives in the executor
module, which is not under src/; per the specification it maps a driver
result to success or failure, i.e. errno zero to `Ok` and any other errno to
`Err` carrying that errno. -/
def errno_result_from_i32 (errno : Int) : Except Int Unit :=
  if errno = 0 then Except.ok () else Except.error errno

/-- Interface model of `futures::channel::oneshot::Sender::send` (external
collaborator): delivery succeeds while the receiver is alive; once the
receiver has been dropped, `send` returns `Err` giving the value back. -/
def oneshot_send (receiverAlive : Bool) (v : Except Int Unit) :
    Except (Except Int Unit) Unit :=
  if receiverAlive then Except.ok () else Except.error v

deriving instance DecidableEq for Except

/-- Observable outcome of running the completion callback: either the result
was delivered to the awaiting receiver, or the callback panicked with the
given message. -/
inductive CallbackOutcome where
  | delivered (result : Except Int Unit)
  | panicked (msg : String)
  deriving DecidableEq, Repr

/-- Embeds `NvmfBdev::nvme_done` of nvmf_dev.rs: the driver completion
callback converts the errno `rc` with `errno_result_from_i32`, sends it over
the oneshot channel, and calls `.expect("NVMe creation cb receiver is gone")`
on the send result — so a closed receiver makes the callback panic. -/
def NvmfBdev.nvme_done (receiverAlive : Bool) (rc : Int) : CallbackOutcome :=
  match oneshot_send receiverAlive (errno_result_from_i32 rc) with
  | Except.ok _ => CallbackOutcome.delivered (errno_result_from_i32 rc)
  | Except.error _ => CallbackOutcome.panicked ("NVMe creation cb receiver is gone")

/-- Embeds `NvmfBdev::create` of nvmf_dev.rs. `bdevTable` is the set of
locally existing bdev names consulted by `bdev_lookup_by_name`;
`createErrno` is the immediate return of `spdk_bdev_nvme_create`; `cbRc` is
the errno later reported through the completion callback (per the spec the
callback always eventually fires); `assignedName` is the driver-assigned
bdev name read back from `ctx.names[0]`. The second component records the
driver calls issued. -/
def NvmfBdev.create (self : NvmfBdev) (bdevTable : List String)
    (createErrno : Int) (cbRc : Int) (assignedName : String) :
    Except BdevError String × List DriverCall :=
  if bdevTable.contains self.name then
    (Except.error (BdevError.BdevExists self.name), [])
  else
    match errno_result_from_i32 createErrno with
    | Except.error _ =>
      (Except.error (BdevError.InvalidParams self.name), [DriverCall.nvmeCreate self.name])
    | Except.ok _ =>
      match errno_result_from_i32 cbRc with
      | Except.error _ =>
        (Except.error (BdevError.CreateBdev self.name), [DriverCall.nvmeCreate self.name])
      | Except.ok _ =>
        (Except.ok assignedName, [DriverCall.nvmeCreate self.name])

/-- Embeds `NvmfBdev::destroy` of nvmf_dev.rs: look up `bdev_name` with
`bdev_lookup_by_name` and fail with `BdevNotFound` if absent; otherwise call
`spdk_bdev_nvme_delete` with `self.name` (note: not with `bdev_name`) and map
its errno through `errno_result_from_i32`, wrapping failures as
`DestroyBdev`. `deleteErrno` is the errno returned by the driver. -/
def NvmfBdev.destroy (self : NvmfBdev) (bdev_name : String)
    (bdevTable : List String) (deleteErrno : Int) :
    Except BdevError Unit × List DriverCall :=
  if bdevTable.contains bdev_name = false then
    (Except.error (BdevError.BdevNotFound bdev_name), [])
  else
    (match errno_result_from_i32 deleteErrno with
      | Except.ok _ => Except.ok ()
      | Except.error _ => Except.error (BdevError.DestroyBdev self.name),
     [DriverCall.nvmeDelete self.name])

/- ------------------------------------------------------------------ -/
/- channel.rs: queue-pair options                                     -/
/- ------------------------------------------------------------------ -/

/-- The fields of the SPDK `spdk_nvme_io_qpair_opts` structure that
channel.rs reads or writes: the queue depth `io_queue_requests` and the
`create_only` flag (suppresses auto-connect at allocation time). -/
structure spdk_nvme_io_qpair_opts where
  io_queue_requests : Nat
  create_only : Bool
  deriving DecidableEq, Repr

/-- The fields of `NvmeBdevOpts` (the configured defaults, defined in the
subsys module) that channel.rs reads: the configured queue depth and the
poller period in microseconds. Their concrete default values are irrelevant
to the claims, so they stay parameters. -/
structure NvmeBdevOpts where
  io_queue_requests : Nat
  nvme_ioq_poll_period_us : Nat
  deriving DecidableEq, Repr

/-- Embeds the option merge inside `NvmeControllerIoChannel::create`
(channel.rs lines 139–141): starting from the controller-provided default
options, set `io_queue_requests` to the max of the option-provided and the
configured value, and set `create_only` to true. -/
def merged_qpair_opts (opts : spdk_nvme_io_qpair_opts) (default_opts : NvmeBdevOpts) :
    spdk_nvme_io_qpair_opts :=
  { io_queue_requests := max opts.io_queue_requests default_opts.io_queue_requests
    create_only := true }

/- ------------------------------------------------------------------ -/
/- channel.rs: channel creation and destruction                       -/
/- ------------------------------------------------------------------ -/

/-- Counts of live driver resources attributable to channel creation: queue
pairs, poll groups, registered pollers, and heap-allocated
`NvmeIoChannelInner` blocks (`Box::into_raw`). -/
structure ResourceState where
  qpairs : Nat
  pollGroups : Nat
  pollers : Nat
  heapChannels : Nat
  deriving DecidableEq, Repr

/-- Outcomes of the external calls made by `NvmeControllerIoChannel::create`:
whether the registry lookup finds the controller, the controller-provided
default queue-pair options, the configured defaults, whether
`spdk_nvme_ctrlr_alloc_io_qpair` returns a non-null qpair, whether
`spdk_nvme_poll_group_create` returns a non-null group, and the return codes
of `spdk_nvme_poll_group_add` and `spdk_nvme_ctrlr_connect_io_qpair`.
Poller registration is modelled as succeeding: the source unwraps the
`NonNull` of the poller and would panic otherwise. -/
structure CreateEnv where
  controllerFound : Bool
  ctrlrDefaultOpts : spdk_nvme_io_qpair_opts
  default_opts : NvmeBdevOpts
  qpairAllocOk : Bool
  pollGroupCreateOk : Bool
  pollGroupAddRc : Int
  connectRc : Int
  deriving DecidableEq, Repr

/-- Driver calls issued by `NvmeControllerIoChannel::create`, in order, with
the payloads the claims inspect. -/
inductive ChannelAction where
  | allocQpair (opts : spdk_nvme_io_qpair_opts)
  | createPollGroup
  | registerPoller (period_us : Nat)
  | pollGroupAdd
  | connectQpair
  deriving DecidableEq, Repr

/-- Result of `NvmeControllerIoChannel::create`: the returned status code,
the live-resource state after the call, and the trace of driver calls
issued. -/
structure CreateResult where
  rc : Int
  state : ResourceState
  trace : List ChannelAction
  deriving DecidableEq, Repr

/-- Embeds `NvmeControllerIoChannel::create` of channel.rs, threading an
explicit resource account. On each failure the source logs an error and
returns 1 immediately, releasing nothing: a poll-group-creation failure
leaves the allocated qpair live, and an add-to-group or connect failure
leaves the qpair, the poll group, the poller, and the heap-allocated inner
state live (the inner box has already been written into the channel
context). Success returns 0. -/
def NvmeControllerIoChannel.create (env : CreateEnv) (s : ResourceState) : CreateResult :=
  if env.controllerFound = false then
    { rc := 1, state := s, trace := [] }
  else
    let opts := merged_qpair_opts env.ctrlrDefaultOpts env.default_opts
    if env.qpairAllocOk = false then
      { rc := 1, state := s, trace := [ChannelAction.allocQpair opts] }
    else
      let s1 : ResourceState := { s with qpairs := s.qpairs + 1 }
      if env.pollGroupCreateOk = false then
        { rc := 1
          state := s1
          trace := [ChannelAction.allocQpair opts, ChannelAction.createPollGroup] }
      else
        let s2 : ResourceState := { s1 with pollGroups := s1.pollGroups + 1 }
        let s3 : ResourceState := { s2 with pollers := s2.pollers + 1 }
        let s4 : ResourceState := { s3 with heapChannels := s3.heapChannels + 1 }
        let t : List ChannelAction :=
          [ChannelAction.allocQpair opts, ChannelAction.createPollGroup,
           ChannelAction.registerPoller env.default_opts.nvme_ioq_poll_period_us,
           ChannelAction.pollGroupAdd]
        if env.pollGroupAddRc = 0 then
          if env.connectRc = 0 then
            { rc := 0, state := s4, trace := t ++ [ChannelAction.connectQpair] }
          else
            { rc := 1, state := s4, trace := t ++ [ChannelAction.connectQpair] }
        else
          { rc := 1, state := s4, trace := t }

/-- Embeds `NvmeControllerIoChannel::destroy` of channel.rs: the body only
emits a debug log (the teardown code is commented out), so the resource
state is returned unchanged — nothing is released. -/
def NvmeControllerIoChannel.destroy (s : ResourceState) : ResourceState := s

/- ------------------------------------------------------------------ -/
/- channel.rs: the poller and the disconnect callback                 -/
/- ------------------------------------------------------------------ -/

/-- Embeds `struct NvmeIoChannelInner` of channel.rs: the qpair, poll group
and poller handles, here as raw handle values with 0 standing for the null
pointer the source tests with `is_null()`. -/
structure NvmeIoChannelInner where
  qpair : Nat
  poll_group : Nat
  poller : Nat
  deriving DecidableEq, Repr

/-- Observable actions of one `nvme_poll` invocation: the three
internal-consistency error logs, the disconnect warning, a reconnect attempt
on a qpair handle, and the completion-processing call on a poll-group
handle. -/
inductive PollAction where
  | logPollerNull
  | logPollGroupNull
  | logQpairNull
  | warnQpairDisconnected
  | reconnectQpair (qpair : Nat)
  | processCompletions (poll_group : Nat)
  deriving DecidableEq, Repr

/-- Embeds `disconnected_qpair_cb` of channel.rs: warn that the qpair
disconnected, then call `spdk_nvme_ctrlr_reconnect_io_qpair` on that same
qpair — one reconnect attempt, no other action, no state touched (the
context argument is ignored by the source). -/
def disconnected_qpair_cb (qpair : Nat) : List PollAction :=
  [PollAction.warnQpairDisconnected, PollAction.reconnectQpair qpair]

/-- Interface model of the SPDK primitive
`spdk_nvme_poll_group_process_completions` (external collaborator): it
drains completions from the group, invoking the supplied disconnect callback
once for each member qpair it observes disconnected — the group built by
channel.rs has exactly one member — and returns the number of completions
processed (`completions`, a parameter of the model). -/
def spdk_nvme_poll_group_process_completions (poll_group : Nat) (qpair : Nat)
    (qpairDisconnected : Bool) (completions : Int) : Int × List PollAction :=
  (completions,
   PollAction.processCompletions poll_group ::
     (if qpairDisconnected then disconnected_qpair_cb qpair else []))

/-- Embeds `nvme_poll` of channel.rs: log an error for each null handle
(poller, poll group, qpair, in that order) but proceed regardless, always
calling `spdk_nvme_poll_group_process_completions` on the stored poll group;
return 1 if any completions were processed, else 0. The channel inner state
is passed through untouched. -/
def nvme_poll (inner : NvmeIoChannelInner) (qpairDisconnected : Bool)
    (completions : Int) : Int × NvmeIoChannelInner × List PollAction :=
  let logs : List PollAction :=
    (if inner.poller = 0 then [PollAction.logPollerNull] else []) ++
    (if inner.poll_group = 0 then [PollAction.logPollGroupNull] else []) ++
    (if inner.qpair = 0 then [PollAction.logQpairNull] else [])
  let pc := spdk_nvme_poll_group_process_completions inner.poll_group inner.qpair
    qpairDisconnected completions
  (if pc.1 > 0 then 1 else 0, inner, logs ++ pc.2)

/- ------------------------------------------------------------------ -/
/- Concrete instances used by the theorems                            -/
/- ------------------------------------------------------------------ -/

/-- The URL `proto://10.0.0.5:4420/nqn.test-subsys?reftag` as observed
through the `url` crate interface. -/
def url_reftag : Url :=
  { hostStr := some ("10.0.0.5")
    port := some 4420
    pathSegments := some [("nqn.test-subsys")]
    queryPairs := [("reftag", "")]
    urlString := "proto://10.0.0.5:4420/nqn.test-subsys?reftag" }

/-- Expected parse result for `url_reftag`. -/
def bdev_reftag : NvmfBdev :=
  { name := "proto://10.0.0.5:4420/nqn.test-subsys?reftag"
    trtype := "TCP"
    adrfam := "IPv4"
    traddr := "10.0.0.5"
    trsvcid := "4420"
    subnqn := "nqn.test-subsys"
    hostnqn := ""
    hostaddr := ""
    hostsvcid := ""
    prchk_reftag := true
    prchk_guard := false }

/-- The URL `proto://10.0.0.5/nqn.test-subsys` (no explicit port). -/
def url_noport : Url :=
  { hostStr := some ("10.0.0.5")
    port := none
    pathSegments := some [("nqn.test-subsys")]
    queryPairs := []
    urlString := "proto://10.0.0.5/nqn.test-subsys" }

/-- Expected parse result for `url_noport`. -/
def bdev_noport : NvmfBdev :=
  { name := "proto://10.0.0.5/nqn.test-subsys"
    trtype := "TCP"
    adrfam := "IPv4"
    traddr := "10.0.0.5"
    trsvcid := "4420"
    subnqn := "nqn.test-subsys"
    hostnqn := ""
    hostaddr := ""
    hostsvcid := ""
    prchk_reftag := false
    prchk_guard := false }

/-- The URL `proto://10.0.0.5:4420` — a non-special scheme with an empty
path, for which `Url::path_segments()` returns `None`. -/
def url_nopath : Url :=
  { hostStr := some ("10.0.0.5")
    port := some 4420
    pathSegments := none
    queryPairs := []
    urlString := "proto://10.0.0.5:4420" }

/-- The URL `proto://10.0.0.5:4420/nqn.test-subsys?frobnicate=1`, carrying a
query parameter the parser does not recognize. -/
def url_unknownq : Url :=
  { hostStr := some ("10.0.0.5")
    port := some 4420
    pathSegments := some [("nqn.test-subsys")]
    queryPairs := [("frobnicate", "1")]
    urlString := "proto://10.0.0.5:4420/nqn.test-subsys?frobnicate=1" }

/-- Expected parse result for `url_unknownq`: the unknown parameter changes
nothing. -/
def bdev_unknownq : NvmfBdev :=
  { name := "proto://10.0.0.5:4420/nqn.test-subsys?frobnicate=1"
    trtype := "TCP"
    adrfam := "IPv4"
    traddr := "10.0.0.5"
    trsvcid := "4420"
    subnqn := "nqn.test-subsys"
    hostnqn := ""
    hostaddr := ""
    hostsvcid := ""
    prchk_reftag := false
    prchk_guard := false }

/-- The zero resource account used as the starting point of the
leak-counting theorems. -/
def emptyResources : ResourceState :=
  { qpairs := 0, pollGroups := 0, pollers := 0, heapChannels := 0 }

/-- A creation environment in which every external step succeeds. -/
def env_all_ok : CreateEnv :=
  { controllerFound := true
    ctrlrDefaultOpts := { io_queue_requests := 128, create_only := false }
    default_opts := { io_queue_requests := 512, nvme_ioq_poll_period_us := 1000 }
    qpairAllocOk := true
    pollGroupCreateOk := true
    pollGroupAddRc := 0
    connectRc := 0 }

/-- A creation environment in which the qpair allocation succeeds but the
poll-group creation fails. -/
def env_pg_fail : CreateEnv :=
  { controllerFound := true
    ctrlrDefaultOpts := { io_queue_requests := 128, create_only := false }
    default_opts := { io_queue_requests := 512, nvme_ioq_poll_period_us := 1000 }
    qpairAllocOk := true
    pollGroupCreateOk := false
    pollGroupAddRc := 0
    connectRc := 0 }

/-- A bdev-args record whose local device name is already taken in the
examples below. -/
def bdev_existing : NvmfBdev :=
  { NvmfBdev.default with name := "nvmf-dev-0" }

/-- A bdev-args record whose stored name differs from the device name passed
to `destroy` in the examples below. -/
def bdev_named_a : NvmfBdev :=
  { NvmfBdev.default with name := "nvmf-a" }

/-- Recognizer for reconnect attempts in a poll trace. -/
def isReconnect : PollAction → Bool
  | PollAction.reconnectQpair _ => true
  | _ => false

/- ------------------------------------------------------------------ -/
/- Helper lemmas                                                      -/
/- ------------------------------------------------------------------ -/

/-- Processing one query pair never changes the `name` field. -/
theorem applyQueryPair_preserves_name (acc : NvmfBdev × List String)
    (p : String × String) :
    (NvmfBdev.applyQueryPair acc p).1.name = acc.1.name := by
  unfold NvmfBdev.applyQueryPair
  split <;> rfl

/-- Folding the query-pair loop never changes the `name` field. -/
theorem foldl_applyQueryPair_preserves_name (ps : List (String × String))
    (acc : NvmfBdev × List String) :
    (ps.foldl NvmfBdev.applyQueryPair acc).1.name = acc.1.name := by
  induction ps generalizing acc with
  | nil => rfl
  | cons p ps ih => rw [List.foldl_cons, ih, applyQueryPair_preserves_name]

/-- Every successful parse stores the full URL string as the device name. -/
theorem try_from_name (u : Url) (b : NvmfBdev) (w : List String)
    (h : NvmfBdev.try_from u = Except.ok (b, w)) : b.name = u.urlString := by
  unfold NvmfBdev.try_from at h
  cases hps : u.pathSegments with
  | none =>
    rw [hps] at h
    exact absurd h (by simp)
  | some s =>
    rw [hps] at h
    simp only [Except.ok.injEq] at h
    have hname := foldl_applyQueryPair_preserves_name u.queryPairs
      ({ NvmfBdev.default with
          trtype := "TCP"
          adrfam := "IPv4"
          subnqn := firstSegment s
          trsvcid := match u.port with
            | some p => toString p
            | none => "4420"
          traddr := u.hostStr.getD ""
          name := u.urlString }, [])
    rw [h] at hname
    exact hname

/- ------------------------------------------------------------------ -/
/- Claim theorems                                                     -/
/- ------------------------------------------------------------------ -/

/-- C5: URL-to-request parsing: `proto://10.0.0.5:4420/nqn.test-subsys?reftag`
yields address 10.0.0.5, service id 4420, subsystem nqn.test-subsys,
prchk_reftag true and prchk_guard false; a URL with no explicit port yields
service id 4420; a URL with no path segment fails with PathMissing; an
unrecognized query parameter is logged and ignored, not rejected. -/
theorem c5_url_parsing :
    NvmfBdev.try_from url_reftag = Except.ok (bdev_reftag, []) ∧
    bdev_reftag.traddr = "10.0.0.5" ∧
    bdev_reftag.trsvcid = "4420" ∧
    bdev_reftag.subnqn = "nqn.test-subsys" ∧
    bdev_reftag.prchk_reftag = true ∧
    bdev_reftag.prchk_guard = false ∧
    NvmfBdev.try_from url_noport = Except.ok (bdev_noport, []) ∧
    bdev_noport.trsvcid = "4420" ∧
    NvmfBdev.try_from url_nopath = Except.error ParseError.PathMissing ∧
    NvmfBdev.try_from url_unknownq =
      Except.ok (bdev_unknownq, ["query parameter frobnicate ignored"]) ∧
    bdev_unknownq.prchk_reftag = false ∧
    bdev_unknownq.prchk_guard = false ∧
    bdev_unknownq.subnqn = "nqn.test-subsys" ∧
    bdev_unknownq.trsvcid = "4420" := by
  decide

/-- C6: attaching with a local device name that already exists returns the
device-exists error without issuing the asynchronous driver creation call. -/
theorem c6_attach_exists_conflict (self : NvmfBdev) (table : List String)
    (createErrno cbRc : Int) (assignedName : String)
    (h : table.contains self.name = true) :
    NvmfBdev.create self table createErrno cbRc assignedName =
      (Except.error (BdevError.BdevExists self.name), []) := by
  have hm : self.name ∈ table := by simpa using h
  simp [NvmfBdev.create, hm]

/-- Witness for C6 at a concrete input. -/
theorem c6_attach_exists_conflict_witness :
    NvmfBdev.create bdev_existing [("nvmf-dev-0")] 0 0 ("assigned") =
      (Except.error (BdevError.BdevExists ("nvmf-dev-0")), []) :=
  c6_attach_exists_conflict bdev_existing [("nvmf-dev-0")] 0 0 ("assigned") (by decide)

/-- C7 counterexample: when the stored name and the looked-up device name
differ, the delete call is issued for the stored name, not for the given
device name — refuting that the delete targets the looked-up name. -/
theorem c7_counterexample :
    (NvmfBdev.destroy bdev_named_a ("nvmf-b") [("nvmf-b")] 0).2 =
      [DriverCall.nvmeDelete ("nvmf-a")] ∧
    DriverCall.nvmeDelete ("nvmf-b") ∉
      (NvmfBdev.destroy bdev_named_a ("nvmf-b") [("nvmf-b")] 0).2 := by
  decide

/-- C7 (amended): detachment looks up the given device name and, if absent,
returns the not-found error with no driver call; otherwise it issues a
delete call for the stored name field of the structure (not necessarily the
looked-up name) and maps the delete errno to success or failure. -/
theorem c7_detach_lookup_and_delete (self : NvmfBdev) (bdev_name : String)
    (table : List String) (deleteErrno : Int) :
    (table.contains bdev_name = false →
      NvmfBdev.destroy self bdev_name table deleteErrno =
        (Except.error (BdevError.BdevNotFound bdev_name), [])) ∧
    (table.contains bdev_name = true →
      (NvmfBdev.destroy self bdev_name table deleteErrno).2 =
        [DriverCall.nvmeDelete self.name] ∧
      ((NvmfBdev.destroy self bdev_name table deleteErrno).1 = Except.ok () ↔
        deleteErrno = 0)) := by
  constructor
  · intro h
    have hm : bdev_name ∉ table := by simpa using h
    simp [NvmfBdev.destroy, hm]
  · intro h
    have hm : bdev_name ∈ table := by simpa using h
    by_cases he : deleteErrno = 0 <;>
      simp [NvmfBdev.destroy, errno_result_from_i32, hm, he]

/-- Witness for C7 at a concrete input: an unknown device name. -/
theorem c7_detach_lookup_and_delete_witness :
    NvmfBdev.destroy bdev_named_a ("nvmf-b") [] 0 =
      (Except.error (BdevError.BdevNotFound ("nvmf-b")), []) :=
  (c7_detach_lookup_and_delete bdev_named_a ("nvmf-b") [] 0).1 rfl

/-- C10 counterexample: the parsed device name is the full URL string, yet a
detach that names a different bdev looks that name up instead — the URL
string being present in the table does not prevent the not-found error, so
the full-URL string is not the name used for the lookup in detach. -/
theorem c10_counterexample :
    (NvmfBdev.try_from url_reftag).map (fun p => p.1.name) =
      Except.ok ("proto://10.0.0.5:4420/nqn.test-subsys?reftag") ∧
    (NvmfBdev.destroy bdev_reftag ("other-name")
        [("proto://10.0.0.5:4420/nqn.test-subsys?reftag")] 0).1 =
      Except.error (BdevError.BdevNotFound ("other-name")) := by
  decide

/-- C10 (amended): for every URL that parses successfully the resulting
local device name of the resulting request is the string form of the entire URL, and that
full-URL string is the name used for the existence check in attach and for
the delete call in detach; the detach lookup instead uses the caller-supplied
device-name argument. -/
theorem c10_name_is_full_url (u : Url) (b : NvmfBdev) (w : List String)
    (h : NvmfBdev.try_from u = Except.ok (b, w))
    (table : List String) (createErrno cbRc deleteErrno : Int)
    (assignedName bdev_name : String) :
    b.name = u.urlString ∧
    (table.contains u.urlString = true →
      NvmfBdev.create b table createErrno cbRc assignedName =
        (Except.error (BdevError.BdevExists u.urlString), [])) ∧
    (table.contains bdev_name = true →
      (NvmfBdev.destroy b bdev_name table deleteErrno).2 =
        [DriverCall.nvmeDelete u.urlString]) ∧
    (table.contains bdev_name = false →
      NvmfBdev.destroy b bdev_name table deleteErrno =
        (Except.error (BdevError.BdevNotFound bdev_name), [])) := by
  have hb : b.name = u.urlString := try_from_name u b w h
  refine ⟨hb, ?_, ?_, ?_⟩
  · intro hc
    rw [← hb] at hc ⊢
    have hm : b.name ∈ table := by simpa using hc
    simp [NvmfBdev.create, hm]
  · intro hc
    have hm : bdev_name ∈ table := by simpa using hc
    by_cases he : deleteErrno = 0 <;>
      simp [NvmfBdev.destroy, errno_result_from_i32, hm, he, hb]
  · intro hc
    have hm : bdev_name ∉ table := by simpa using hc
    simp [NvmfBdev.destroy, hm]

/-- Witness for C10 at a concrete input. -/
theorem c10_name_is_full_url_witness :
    bdev_reftag.name = url_reftag.urlString :=
  (c10_name_is_full_url url_reftag bdev_reftag [] (by decide)
    [] 0 0 0 ("assigned") ("other-name")).1

/-- C2 counterexample: when the receiver was dropped before the callback
fires, the completion callback does fault — it panics with the expect
message instead of discarding the result. -/
theorem c2_counterexample :
    NvmfBdev.nvme_done false 0 =
      CallbackOutcome.panicked ("NVMe creation cb receiver is gone") := by
  decide

/-- C2 (amended): a completion callback delivered after the awaiting side
has been abandoned panics with the message NVMe creation cb receiver is
gone (the send result is unwrapped with expect); only while the receiver is
alive is the converted errno delivered without fault. -/
theorem c2_callback_panics_when_abandoned (rc : Int) :
    NvmfBdev.nvme_done false rc =
      CallbackOutcome.panicked ("NVMe creation cb receiver is gone") ∧
    NvmfBdev.nvme_done true rc =
      CallbackOutcome.delivered (errno_result_from_i32 rc) :=
  ⟨rfl, rfl⟩

/-- C1 counterexample: with the controller found and the qpair allocated,
a poll-group-creation failure makes the call return the failure code 1
while the queue pair allocated in the earlier step is still live — refuting
that no earlier-allocated resource remains live after a failed creation. -/
theorem c1_counterexample :
    (NvmeControllerIoChannel.create env_pg_fail emptyResources).rc = 1 ∧
    (NvmeControllerIoChannel.create env_pg_fail emptyResources).state.qpairs = 1 := by
  decide

/-- C1 (amended): channel creation returns 0 exactly when every step
succeeds and returns the failure code 1 on any intermediate failure, but it
rolls nothing back: a poll-group-creation failure leaves the queue pair
allocated, and once the poll group is created, the queue pair, poll group,
poller and heap channel state all stay allocated whether or not the
add-to-group and connect steps succeed. -/
theorem c1_create_no_rollback (env : CreateEnv) (s : ResourceState) :
    ((NvmeControllerIoChannel.create env s).rc = 0 ↔
      env.controllerFound = true ∧ env.qpairAllocOk = true ∧
      env.pollGroupCreateOk = true ∧ env.pollGroupAddRc = 0 ∧ env.connectRc = 0) ∧
    ((NvmeControllerIoChannel.create env s).rc = 0 ∨
      (NvmeControllerIoChannel.create env s).rc = 1) ∧
    (env.controllerFound = true → env.qpairAllocOk = true →
      env.pollGroupCreateOk = false →
      (NvmeControllerIoChannel.create env s).state =
        { s with qpairs := s.qpairs + 1 }) ∧
    (env.controllerFound = true → env.qpairAllocOk = true →
      env.pollGroupCreateOk = true →
      (NvmeControllerIoChannel.create env s).state =
        { qpairs := s.qpairs + 1, pollGroups := s.pollGroups + 1,
          pollers := s.pollers + 1, heapChannels := s.heapChannels + 1 }) := by
  rcases env with ⟨cf, co, dop, qa, pg, arc, crc⟩
  cases cf <;> cases qa <;> cases pg <;>
    by_cases h1 : arc = 0 <;> by_cases h2 : crc = 0 <;>
      simp_all [NvmeControllerIoChannel.create]

/-- Witness for C1 at a concrete input: the poll-group-creation failure
leaves the earlier queue pair allocated. -/
theorem c1_create_no_rollback_witness :
    (NvmeControllerIoChannel.create env_pg_fail emptyResources).state =
      { emptyResources with qpairs := emptyResources.qpairs + 1 } :=
  (c1_create_no_rollback env_pg_fail emptyResources).2.2.1 rfl rfl rfl

/-- C3 counterexample: a fully successful creation followed by destruction
does not return the resource account to zero — queue pair, poll group,
poller and heap channel state all leak, refuting that destroy releases
them. -/
theorem c3_counterexample :
    (NvmeControllerIoChannel.create env_all_ok emptyResources).rc = 0 ∧
    NvmeControllerIoChannel.destroy
      (NvmeControllerIoChannel.create env_all_ok emptyResources).state ≠
      emptyResources := by
  decide

/-- C3 (amended): destroy releases nothing — its body only logs — so create
immediately followed by destroy leaves the resource state exactly as
creation left it; in particular a successful creation from the empty account
leaves one queue pair, one poll group, one poller and one heap channel state
allocated after destroy. -/
theorem c3_destroy_releases_nothing (env : CreateEnv) (s : ResourceState) :
    NvmeControllerIoChannel.destroy (NvmeControllerIoChannel.create env s).state =
      (NvmeControllerIoChannel.create env s).state ∧
    NvmeControllerIoChannel.destroy
      (NvmeControllerIoChannel.create env_all_ok emptyResources).state =
      { qpairs := 1, pollGroups := 1, pollers := 1, heapChannels := 1 } :=
  ⟨rfl, by decide⟩

/-- C4 counterexample: with every handle null, the poller invocation still
calls the completion-processing routine (on the null poll-group handle),
refuting that a null handle makes it skip the rest of the invocation. -/
theorem c4_counterexample :
    PollAction.logQpairNull ∈ (nvme_poll ⟨0, 0, 0⟩ false 0).2.2 ∧
    PollAction.processCompletions 0 ∈ (nvme_poll ⟨0, 0, 0⟩ false 0).2.2 := by
  decide

/-- C4 (amended): each null handle among poller, poll group and queue pair
is logged as an internal-consistency error, but the invocation is not
skipped — the completion-processing routine is called on the stored
poll-group handle in every invocation. -/
theorem c4_null_checks_do_not_skip (inner : NvmeIoChannelInner) (d : Bool)
    (n : Int) :
    ((PollAction.logPollerNull ∈ (nvme_poll inner d n).2.2) ↔ inner.poller = 0) ∧
    ((PollAction.logPollGroupNull ∈ (nvme_poll inner d n).2.2) ↔ inner.poll_group = 0) ∧
    ((PollAction.logQpairNull ∈ (nvme_poll inner d n).2.2) ↔ inner.qpair = 0) ∧
    PollAction.processCompletions inner.poll_group ∈ (nvme_poll inner d n).2.2 := by
  rcases inner with ⟨q, g, p⟩
  by_cases hp : p = 0 <;> by_cases hg : g = 0 <;> by_cases hq : q = 0 <;>
    cases d <;>
      simp_all [nvme_poll, spdk_nvme_poll_group_process_completions,
        disconnected_qpair_cb]

/-- C8: the queue-pair options used for allocation during channel creation
take the maximum of the controller-provided and the configured queue depth
(never below the configured minimum) and are marked create-only. -/
theorem c8_qpair_opts_merge (env : CreateEnv) (s : ResourceState)
    (h : env.controllerFound = true) :
    ChannelAction.allocQpair (merged_qpair_opts env.ctrlrDefaultOpts env.default_opts)
      ∈ (NvmeControllerIoChannel.create env s).trace ∧
    (merged_qpair_opts env.ctrlrDefaultOpts env.default_opts).io_queue_requests =
      max env.ctrlrDefaultOpts.io_queue_requests env.default_opts.io_queue_requests ∧
    env.default_opts.io_queue_requests ≤
      (merged_qpair_opts env.ctrlrDefaultOpts env.default_opts).io_queue_requests ∧
    (merged_qpair_opts env.ctrlrDefaultOpts env.default_opts).create_only = true := by
  refine ⟨?_, rfl, Nat.le_max_right _ _, rfl⟩
  rcases env with ⟨cf, co, dop, qa, pg, arc, crc⟩
  cases cf
  · exact absurd h (by simp)
  · cases qa <;> cases pg <;>
      by_cases h1 : arc = 0 <;> by_cases h2 : crc = 0 <;>
        simp_all [NvmeControllerIoChannel.create]

/-- Witness for C8 at a concrete input. -/
theorem c8_qpair_opts_merge_witness :
    ChannelAction.allocQpair
        (merged_qpair_opts env_all_ok.ctrlrDefaultOpts env_all_ok.default_opts)
      ∈ (NvmeControllerIoChannel.create env_all_ok emptyResources).trace ∧
    (merged_qpair_opts env_all_ok.ctrlrDefaultOpts env_all_ok.default_opts).io_queue_requests =
      max env_all_ok.ctrlrDefaultOpts.io_queue_requests
        env_all_ok.default_opts.io_queue_requests ∧
    env_all_ok.default_opts.io_queue_requests ≤
      (merged_qpair_opts env_all_ok.ctrlrDefaultOpts env_all_ok.default_opts).io_queue_requests ∧
    (merged_qpair_opts env_all_ok.ctrlrDefaultOpts env_all_ok.default_opts).create_only = true :=
  c8_qpair_opts_merge env_all_ok emptyResources rfl

/-- C9: a poller invocation that observes the queue pair disconnected makes
exactly one reconnect attempt, on that same queue pair, and leaves the
channel state (queue pair and poll group handles) unchanged. -/
theorem c9_single_reconnect (inner : NvmeIoChannelInner) (n : Int) :
    (nvme_poll inner true n).2.1 = inner ∧
    ((nvme_poll inner true n).2.2.filter isReconnect) =
      [PollAction.reconnectQpair inner.qpair] := by
  rcases inner with ⟨q, g, p⟩
  refine ⟨rfl, ?_⟩
  by_cases hp : p = 0 <;> by_cases hg : g = 0 <;> by_cases hq : q = 0 <;>
    simp_all [nvme_poll, spdk_nvme_poll_group_process_completions,
      disconnected_qpair_cb, isReconnect, List.filter_append]
